import Mathlib

/-!
Shallow embedding of `src/app.py` (a Streamlit GitHub dashboard) and proofs
about its metric-derivation, fetch error handling and campaign persistence
logic.

Modelling conventions:
* Timestamps (`createdAt`, `closedAt`, `committedDate`) are integers counting
  seconds, matching `datetime` values compared and subtracted in the source
  (`total_seconds()`); `timedelta(days=60)` is `60 * 86400 = 5184000` seconds.
* Python float arithmetic on these quantities is modelled over `ℚ`.
* `datetime.now()` is an ambient input; it is passed explicitly as `now`.
* The persisted campaign file is modelled as `Option Json`: `none` is an
  absent file, `some j` a file whose parsed content is the JSON document `j`
  (`json.dump`/`json.load` are inverse on such documents).
-/

/-- A closed issue as it reaches the metric functions: the `node` dict with
`createdAt` and `closedAt` timestamps (seconds). -/
structure Issue where
  createdAt : Int
  closedAt : Int
deriving Repr, DecidableEq

/-- A commit edge as it reaches `count_commits_last_60_days`: only the
`node.committedDate` timestamp (seconds) matters there. -/
structure Commit where
  committedDate : Int
deriving Repr, DecidableEq

/-- Embeds `calculate_average_resolution_time` (src/app.py lines 99-114):
loops over `issues[:10]`, accumulates `closedAt - createdAt` in seconds and a
count, returns 0 when the count is 0 and otherwise the mean divided by 3600. -/
def calculate_average_resolution_time (issues : List Issue) : ℚ :=
  let s : ℚ × ℕ := (issues.take 10).foldl
    (fun acc issue => (acc.1 + ((issue.closedAt - issue.createdAt : ℤ) : ℚ), acc.2 + 1))
    (0, 0)
  if s.2 = 0 then 0 else (s.1 / (s.2 : ℚ)) / 3600

/-- Spec-side formula for the average: mean of `closedAt - createdAt` over the
first ten issues, converted to hours; 0 on an empty considered set. -/
def specAverageResolutionHours (issues : List Issue) : ℚ :=
  let considered := issues.take 10
  if considered.isEmpty then 0
  else ((considered.map (fun issue => ((issue.closedAt - issue.createdAt : ℤ) : ℚ))).sum
          / (considered.length : ℚ)) / 3600

/-- Renders a rational with two decimal places (the model of Python
`f-string` `:.2f` formatting on the exact values exercised here). -/
def formatTwoDec (q : ℚ) : String :=
  let c : ℤ := round (q * 100)
  let n : ℕ := c.natAbs
  let frac : ℕ := n % 100
  let fracStr := if frac < 10 then "0" ++ toString frac else toString frac
  (if c < 0 then "-" else "") ++ toString (n / 100) ++ "." ++ fracStr

/-- Embeds the formatting branch of the search handler
(src/app.py lines 192-196): strictly more than 24 hours is shown as days. -/
def average_time_formatted (average_time : ℚ) : String :=
  if average_time > 24 then formatTwoDec (average_time / 24) ++ " days"
  else formatTwoDec average_time ++ " hours"

/-- Embeds `count_issues_resolved_last_60_days` (src/app.py lines 117-126):
counts, over the whole list, issues with `closedAt >= now - 60 days`. -/
def count_issues_resolved_last_60_days (now : Int) (issues : List Issue) : ℕ :=
  issues.foldl
    (fun resolved_count issue =>
      if issue.closedAt ≥ now - 60 * 86400 then resolved_count + 1 else resolved_count)
    0

/-- Embeds `count_commits_last_60_days` (src/app.py lines 129-138):
counts, over the whole list, commits with `committedDate >= now - 60 days`. -/
def count_commits_last_60_days (now : Int) (commits : List Commit) : ℕ :=
  commits.foldl
    (fun commit_count commit =>
      if commit.committedDate ≥ now - 60 * 86400 then commit_count + 1 else commit_count)
    0

/-! ### Fetcher: `get_repo_details_and_issues` error handling -/

/-- One entry of a GraphQL `errors` list: its `type` tag and the response
`path` it concerns (the source only ever inspects `type`). -/
structure GqlError where
  type : String
  path : List String
deriving Repr, DecidableEq

/-- A collaborator edge node: `login` and profile `url`. -/
structure Collaborator where
  login : String
  url : String
deriving Repr, DecidableEq

/-- A Python dict entry that may be missing (subscripting raises `KeyError`),
`None` (subscripting or item assignment raises `TypeError`), or present. -/
inductive PyField (α : Type) where
  | absent
  | null
  | val (a : α)
deriving Repr, DecidableEq

/-- The parts of the `repository` object the error-handling path touches:
the collaborators edge list (other payload parts are summarised by the
star/fork counts and are carried through unchanged). -/
structure Repo where
  stargazerCount : Int
  forkCount : Int
  collaborators : List Collaborator
deriving Repr, DecidableEq

/-- The `data` object of a GraphQL response body. -/
structure DataObj where
  repository : PyField Repo
deriving Repr, DecidableEq

/-- A parsed GraphQL response body: the optional `errors` list (`none` when
the `errors` key is absent) and the `data` entry. -/
structure ResponseData where
  errors : Option (List GqlError)
  data : PyField DataObj
deriving Repr, DecidableEq

/-- An HTTP response: status code and parsed JSON body. -/
structure HttpResponse where
  status_code : Nat
  body : ResponseData
deriving Repr, DecidableEq

/-- Python lookup failures raised by subscripting/assigning into the
response payload. -/
inductive PyErr where
  | keyError (key : String)
  | typeError
deriving Repr, DecidableEq

/-- The `(data, message)` pair returned by `get_repo_details_and_issues`;
the Python code interpolates the payloads below into plain strings. -/
inductive FetchMessage where
  | failedStatus (code : Nat)
  | errorsInResponse (errors : List GqlError)
deriving Repr, DecidableEq

/-- Embeds the statement
`response_data['data']['repository']['collaborators'] = {'edges': []}`
(src/app.py line 85): each subscript raises `KeyError` on a missing key and
`TypeError` on a `None` value; the final item assignment always succeeds on a
dict. -/
def set_collaborators_empty (rd : ResponseData) : Except PyErr ResponseData :=
  match rd.data with
  | .absent => .error (.keyError "data")
  | .null => .error .typeError
  | .val dobj =>
    match dobj.repository with
    | .absent => .error (.keyError "repository")
    | .null => .error .typeError
    | .val repo =>
      .ok { rd with data := .val { repository := .val { repo with collaborators := [] } } }

/-- Embeds `get_repo_details_and_issues` (src/app.py lines 79-88) from the
point where the HTTP response is available: non-200 status returns the
failure pair; a body with an `errors` key takes the FORBIDDEN carve-out when
`any` error has type `FORBIDDEN` (overwriting collaborators in place, which
may raise) and otherwise returns the error pair; otherwise the body is
returned with no message. -/
def get_repo_details_and_issues (response : HttpResponse) :
    Except PyErr (Option ResponseData × Option FetchMessage) :=
  if response.status_code ≠ 200 then
    .ok (none, some (.failedStatus response.status_code))
  else
    match response.body.errors with
    | some errors =>
      if errors.any (fun error => error.type == "FORBIDDEN") then
        match set_collaborators_empty response.body with
        | .error e => .error e
        | .ok rd => .ok (some rd, none)
      else
        .ok (none, some (.errorsInResponse errors))
    | none => .ok (some response.body, none)

/-- Spec-side classification (from the spec, not the source): an error is a
permission/forbidden error on the collaborators field when its type is
`FORBIDDEN` and its path mentions `collaborators`. -/
def specForbiddenOnCollaborators (error : GqlError) : Bool :=
  error.type == "FORBIDDEN" && error.path.contains "collaborators"

/-- Spec-side observation: is a fetch result the `(None, message)` pair
carrying an API error list? -/
def isApiErrorPair (r : Except PyErr (Option ResponseData × Option FetchMessage)) : Bool :=
  match r with
  | .ok (none, some (.errorsInResponse _)) => true
  | _ => false

/-- Spec-side observation: does the body carry a non-null `data.repository`
mapping? -/
def hasDataRepository (rd : ResponseData) : Bool :=
  match rd.data with
  | .val dobj =>
    match dobj.repository with
    | .val _ => true
    | _ => false
  | _ => false

/-! ### Campaign store -/

/-- The JSON documents `json.dump` writes and `json.load` reads back. -/
inductive Json where
  | null
  | str (s : String)
  | int (n : Int)
  | arr (elems : List Json)
  | obj (fields : List (String × Json))
deriving Repr

/-- One campaign record, with exactly the fields assembled at
src/app.py lines 237-248. -/
structure CampaignEntry where
  repo_name : String
  owner : String
  stars : Int
  forks : Int
  languages : String
  average_issue_resolution_time : String
  latest_commit_date : Option String
  contributors : String
  issues_solved_last_60_days : Int
  commits_last_60_days : Int
deriving Repr, DecidableEq

/-- The JSON document `json.dump` produces for one campaign entry dict. -/
def encodeEntry (e : CampaignEntry) : Json :=
  .obj [("repo_name", .str e.repo_name),
        ("owner", .str e.owner),
        ("stars", .int e.stars),
        ("forks", .int e.forks),
        ("languages", .str e.languages),
        ("average_issue_resolution_time", .str e.average_issue_resolution_time),
        ("latest_commit_date",
          match e.latest_commit_date with
          | some d => .str d
          | none => .null),
        ("contributors", .str e.contributors),
        ("issues_solved_last_60_days", .int e.issues_solved_last_60_days),
        ("commits_last_60_days", .int e.commits_last_60_days)]

/-- Reads a `latest_commit_date` value back (`null` or a string). -/
def decodeDate : Json → Option (Option String)
  | .null => some none
  | .str s => some (some s)
  | _ => none

/-- Reads one campaign entry back from its JSON document. -/
def decodeEntry : Json → Option CampaignEntry
  | .obj [("repo_name", .str repo_name),
          ("owner", .str owner),
          ("stars", .int stars),
          ("forks", .int forks),
          ("languages", .str languages),
          ("average_issue_resolution_time", .str avg),
          ("latest_commit_date", date),
          ("contributors", .str contributors),
          ("issues_solved_last_60_days", .int issues60),
          ("commits_last_60_days", .int commits60)] =>
    (decodeDate date).map (fun d =>
      { repo_name := repo_name, owner := owner, stars := stars, forks := forks,
        languages := languages, average_issue_resolution_time := avg,
        latest_commit_date := d, contributors := contributors,
        issues_solved_last_60_days := issues60, commits_last_60_days := commits60 })
  | _ => none

/-- Reads a list of entry documents back, failing when any element fails. -/
def decodeEntries : List Json → Option (List CampaignEntry)
  | [] => some []
  | j :: rest =>
    match decodeEntry j, decodeEntries rest with
    | some e, some es => some (e :: es)
    | _, _ => none

/-- Reads a whole campaign back from the persisted JSON document. -/
def decodeCampaign : Json → Option (List CampaignEntry)
  | .arr elems => decodeEntries elems
  | _ => none

/-- Embeds `save_campaign` (src/app.py lines 141-143): rewrites the file in
full with the JSON array of entry documents, whatever it held before. -/
def save_campaign (campaign_data : List CampaignEntry) (_file : Option Json) : Option Json :=
  some (.arr (campaign_data.map encodeEntry))

/-- Embeds `load_campaign` (src/app.py lines 146-150): the parsed content of
the file when it exists, the empty list value otherwise. -/
def load_campaign (file : Option Json) : Json :=
  match file with
  | some j => j
  | none => .arr []

/-- The session state the campaign actions mutate: the in-memory
`campaign_repos` list and the persisted file. -/
structure AppState where
  campaign_repos : List CampaignEntry
  file : Option Json

/-- Embeds the add-to-campaign action (src/app.py lines 236-249):
`campaign_repos.append(...)` followed by `save_campaign(campaign_repos)`. -/
def add_to_campaign (entry : CampaignEntry) (st : AppState) : AppState :=
  let campaign := st.campaign_repos ++ [entry]
  { campaign_repos := campaign, file := save_campaign campaign st.file }

/-- Embeds the clear-campaign action (src/app.py lines 364-367):
`campaign_repos.clear()` followed by `save_campaign(campaign_repos)`. -/
def clear_campaign (st : AppState) : AppState :=
  { campaign_repos := [], file := save_campaign [] st.file }

/-! ### Language extraction and campaign entry construction -/

/-- One `languages` edge of the repository payload: byte `size` and the
node's `name`. -/
structure LanguageEdge where
  size : Int
  name : String
deriving Repr, DecidableEq

/-- Embeds src/app.py line 183: the list of language names in edge order. -/
def extracted_languages (edges : List LanguageEdge) : List String :=
  edges.map (fun language => language.name)

/-- Embeds src/app.py line 186: the same list with `"Hack"` filtered out. -/
def filtered_languages (edges : List LanguageEdge) : List String :=
  (extracted_languages edges).filter (fun lang => lang != "Hack")

/-- Embeds the campaign entry dict built at src/app.py lines 237-248 from the
values the search handler derived. -/
def build_campaign_entry (repo owner : String) (stargazers_count fork_count : Int)
    (edges : List LanguageEdge) (average_time_fmt : String)
    (latest_commit_date : Option String) (contributor_logins : List String)
    (issues_resolved_last_60_days commits_last_60 : ℕ) : CampaignEntry :=
  { repo_name := repo, owner := owner, stars := stargazers_count, forks := fork_count,
    languages := String.intercalate ", " (filtered_languages edges),
    average_issue_resolution_time := average_time_fmt,
    latest_commit_date := latest_commit_date,
    contributors := String.intercalate ", " contributor_logins,
    issues_solved_last_60_days := (issues_resolved_last_60_days : Int),
    commits_last_60_days := (commits_last_60 : Int) }

/-! ### Concrete inputs used by witnesses and counterexamples -/

/-- A repository payload with one collaborator. -/
def exampleRepo : Repo :=
  { stargazerCount := 10, forkCount := 2,
    collaborators := [{ login := "alice", url := "https://github.com/alice" }] }

/-- A 200 response whose single error is FORBIDDEN but concerns the issues
path, not the collaborators field; its body carries `data.repository`. -/
def forbiddenIssuesResponse : HttpResponse :=
  { status_code := 200,
    body := { errors := some [{ type := "FORBIDDEN", path := ["repository", "issues"] }],
              data := .val { repository := .val exampleRepo } } }

/-- A 200 response whose single error is FORBIDDEN on the collaborators
field; its body carries `data.repository`. -/
def forbiddenCollaboratorsResponse : HttpResponse :=
  { status_code := 200,
    body := { errors := some [{ type := "FORBIDDEN", path := ["repository", "collaborators"] }],
              data := .val { repository := .val exampleRepo } } }

/-- A 200 response with a FORBIDDEN error whose body has `data` equal to
JSON `null`, so the collaborators overwrite subscripts into `None`. -/
def forbiddenNullDataResponse : HttpResponse :=
  { status_code := 200,
    body := { errors := some [{ type := "FORBIDDEN", path := ["repository", "collaborators"] }],
              data := .null } }

/-- A sample campaign record. -/
def exampleEntry : CampaignEntry :=
  { repo_name := "repo", owner := "octo", stars := 3, forks := 1,
    languages := "Python", average_issue_resolution_time := "10.00 hours",
    latest_commit_date := some "2026-01-01", contributors := "alice",
    issues_solved_last_60_days := 2, commits_last_60_days := 5 }

/-- A fresh session: empty campaign, no persisted file. -/
def exampleState : AppState := { campaign_repos := [], file := none }

/-- Language edges as the API could report them, `Hack` included. -/
def exampleEdges : List LanguageEdge :=
  [{ size := 100, name := "Python" }, { size := 50, name := "Hack" }]

/-- Eleven issues, each resolved in one hour. -/
def exampleIssues : List Issue := List.replicate 11 { createdAt := 0, closedAt := 3600 }

/-! ## Helper lemmas -/

/-- The accumulation loop of `calculate_average_resolution_time` computes the
running sum of resolution seconds together with the number of issues seen. -/
theorem resolution_foldl (l : List Issue) (a : ℚ) (n : ℕ) :
    l.foldl
      (fun acc issue => (acc.1 + ((issue.closedAt - issue.createdAt : ℤ) : ℚ), acc.2 + 1))
      (a, n)
      = (a + (l.map (fun issue => ((issue.closedAt - issue.createdAt : ℤ) : ℚ))).sum,
         n + l.length) := by
  induction l generalizing a n with
  | nil => simp
  | cons i rest ih =>
    simp only [List.foldl_cons, List.map_cons, List.sum_cons, List.length_cons, ih,
      Prod.mk.injEq]
    constructor
    · ring
    · omega

/-- The average-resolution loop agrees with the closed-form mean. -/
theorem calculate_average_eq_spec (issues : List Issue) :
    calculate_average_resolution_time issues = specAverageResolutionHours issues := by
  unfold calculate_average_resolution_time specAverageResolutionHours
  simp only [resolution_foldl, zero_add, Nat.zero_add]
  generalize issues.take 10 = c
  cases c with
  | nil => simp
  | cons i rest => simp [List.isEmpty]

/-- The counting loop of `count_issues_resolved_last_60_days` computes the
number of in-window issues, offset by its initial accumulator. -/
theorem count_issues_foldl (now : Int) (l : List Issue) (n : ℕ) :
    l.foldl
      (fun resolved_count issue =>
        if issue.closedAt ≥ now - 60 * 86400 then resolved_count + 1 else resolved_count)
      n
      = n + l.countP (fun issue => decide (issue.closedAt ≥ now - 60 * 86400)) := by
  induction l generalizing n with
  | nil => simp
  | cons i rest ih =>
    simp only [List.foldl_cons, List.countP_cons]
    by_cases h : i.closedAt ≥ now - 60 * 86400
    · simp only [if_pos h, ih, decide_eq_true h, if_true]
      omega
    · rw [if_neg h, ih, decide_eq_false h]
      simp

/-- Same accumulator lemma for the commit-counting loop. -/
theorem count_commits_foldl (now : Int) (l : List Commit) (n : ℕ) :
    l.foldl
      (fun commit_count commit =>
        if commit.committedDate ≥ now - 60 * 86400 then commit_count + 1 else commit_count)
      n
      = n + l.countP (fun commit => decide (commit.committedDate ≥ now - 60 * 86400)) := by
  induction l generalizing n with
  | nil => simp
  | cons c rest ih =>
    simp only [List.foldl_cons, List.countP_cons]
    by_cases h : c.committedDate ≥ now - 60 * 86400
    · simp only [if_pos h, ih, decide_eq_true h, if_true]
      omega
    · rw [if_neg h, ih, decide_eq_false h]
      simp

/-- `calculate_average_resolution_time` on the first ten issues only differs
from the full list by `List.take_take`. -/
theorem calculate_average_take_ten (issues : List Issue) :
    calculate_average_resolution_time (issues.take 10)
      = calculate_average_resolution_time issues := by
  unfold calculate_average_resolution_time
  rw [List.take_take]
  norm_num

/-- Evaluation rule for `formatTwoDec` once the scaled value is known to be
an exact integer. -/
theorem formatTwoDec_eval (q : ℚ) (n : ℤ) (h : q * 100 = (n : ℚ)) :
    formatTwoDec q
      = (if n < 0 then "-" else "") ++ toString (n.natAbs / 100) ++ "."
          ++ (if n.natAbs % 100 < 10 then "0" ++ toString (n.natAbs % 100)
              else toString (n.natAbs % 100)) := by
  simp only [formatTwoDec]
  rw [h, round_intCast]

/-! ## Claim theorems -/

/-- C2: `calculate_average_resolution_time` considers only the first ten
issues (its output on any list longer than ten equals its output on the first
ten alone), equals the mean of `closedAt - createdAt` seconds over the
considered issues converted to hours, and returns exactly 0 on the empty
list. -/
theorem average_resolution_first_ten :
    (∀ issues : List Issue, 10 < issues.length →
      calculate_average_resolution_time issues
        = calculate_average_resolution_time (issues.take 10))
    ∧ (∀ issues : List Issue,
      calculate_average_resolution_time issues = specAverageResolutionHours issues)
    ∧ calculate_average_resolution_time [] = 0 := by
  refine ⟨fun issues _ => (calculate_average_take_ten issues).symm,
    calculate_average_eq_spec, rfl⟩

/-- Witness for C2: a concrete list of eleven issues is truncated to its
first ten. -/
theorem average_resolution_first_ten_witness :
    calculate_average_resolution_time exampleIssues
      = calculate_average_resolution_time (exampleIssues.take 10) :=
  average_resolution_first_ten.1 exampleIssues (by decide)

/-- C3: the handler shows averages strictly above 24 hours as days with two
decimals and everything else as hours with two decimals; 30 hours renders as
"1.25 days", 10 hours as "10.00 hours", and the boundary 24 hours stays in
the hours branch as "24.00 hours". -/
theorem average_time_format_rule :
    (∀ a : ℚ, 24 < a →
      average_time_formatted a = formatTwoDec (a / 24) ++ " days")
    ∧ (∀ a : ℚ, a ≤ 24 →
      average_time_formatted a = formatTwoDec a ++ " hours")
    ∧ average_time_formatted 30 = "1.25 days"
    ∧ average_time_formatted 10 = "10.00 hours"
    ∧ average_time_formatted 24 = "24.00 hours" := by
  refine ⟨fun a h => ?_, fun a h => ?_, ?_, ?_, ?_⟩
  · unfold average_time_formatted
    rw [if_pos h]
  · unfold average_time_formatted
    rw [if_neg (not_lt.mpr h)]
  · unfold average_time_formatted
    rw [if_pos (by norm_num : (30 : ℚ) > 24),
      formatTwoDec_eval ((30 : ℚ) / 24) 125 (by norm_num)]
    decide
  · unfold average_time_formatted
    rw [if_neg (by norm_num : ¬ (10 : ℚ) > 24),
      formatTwoDec_eval (10 : ℚ) 1000 (by norm_num)]
    decide
  · unfold average_time_formatted
    rw [if_neg (by norm_num : ¬ (24 : ℚ) > 24),
      formatTwoDec_eval (24 : ℚ) 2400 (by norm_num)]
    decide

/-- Witness for C3: the branch rules applied at 30 and at 24. -/
theorem average_time_format_rule_witness :
    average_time_formatted 30 = formatTwoDec ((30 : ℚ) / 24) ++ " days"
    ∧ average_time_formatted 24 = formatTwoDec (24 : ℚ) ++ " hours" :=
  ⟨average_time_format_rule.1 30 (by norm_num),
   average_time_format_rule.2.1 24 le_rfl⟩

/-- C4: both 60-day window counters scan their whole input list, counting the
items whose timestamp is at least `now - 60 days`, and the boundary timestamp
exactly `now - 60 days` is included (the comparison is `>=`). -/
theorem window_counts_inclusive :
    (∀ (now : Int) (issues : List Issue),
      count_issues_resolved_last_60_days now issues
        = issues.countP (fun issue => decide (issue.closedAt ≥ now - 60 * 86400)))
    ∧ (∀ (now : Int) (commits : List Commit),
      count_commits_last_60_days now commits
        = commits.countP (fun commit => decide (commit.committedDate ≥ now - 60 * 86400)))
    ∧ (∀ (now : Int) (issues : List Issue) (issue : Issue),
      issue.closedAt = now - 60 * 86400 →
      count_issues_resolved_last_60_days now (issue :: issues)
        = count_issues_resolved_last_60_days now issues + 1)
    ∧ (∀ (now : Int) (commits : List Commit) (commit : Commit),
      commit.committedDate = now - 60 * 86400 →
      count_commits_last_60_days now (commit :: commits)
        = count_commits_last_60_days now commits + 1) := by
  have hissues : ∀ (now : Int) (issues : List Issue),
      count_issues_resolved_last_60_days now issues
        = issues.countP (fun issue => decide (issue.closedAt ≥ now - 60 * 86400)) := by
    intro now issues
    unfold count_issues_resolved_last_60_days
    rw [count_issues_foldl]
    omega
  have hcommits : ∀ (now : Int) (commits : List Commit),
      count_commits_last_60_days now commits
        = commits.countP (fun commit => decide (commit.committedDate ≥ now - 60 * 86400)) := by
    intro now commits
    unfold count_commits_last_60_days
    rw [count_commits_foldl]
    omega
  refine ⟨hissues, hcommits, fun now issues issue h => ?_, fun now commits commit h => ?_⟩
  · rw [hissues, hissues, List.countP_cons]
    have : issue.closedAt ≥ now - 60 * 86400 := le_of_eq h.symm
    rw [decide_eq_true this]
    simp
  · rw [hcommits, hcommits, List.countP_cons]
    have : commit.committedDate ≥ now - 60 * 86400 := le_of_eq h.symm
    rw [decide_eq_true this]
    simp

/-- Witness for C4: with `now = 5184000`, an issue closed and a commit made
at timestamp 0 sit exactly on the window boundary and are counted. -/
theorem window_counts_inclusive_witness :
    count_issues_resolved_last_60_days 5184000 [{ createdAt := 0, closedAt := 0 }]
        = count_issues_resolved_last_60_days 5184000 [] + 1
    ∧ count_commits_last_60_days 5184000 [{ committedDate := 0 }]
        = count_commits_last_60_days 5184000 [] + 1 :=
  ⟨window_counts_inclusive.2.2.1 5184000 [] { createdAt := 0, closedAt := 0 } (by decide),
   window_counts_inclusive.2.2.2 5184000 [] { committedDate := 0 } (by decide)⟩

/-- When the body carries a `data.repository` mapping, the collaborators
overwrite succeeds and empties the collaborator edges. -/
theorem set_collaborators_empty_of_val (rd : ResponseData) (dobj : DataObj) (repo : Repo)
    (hdata : rd.data = .val dobj) (hrepo : dobj.repository = .val repo) :
    set_collaborators_empty rd
      = .ok { rd with data := .val { repository := .val { repo with collaborators := [] } } } := by
  simp only [set_collaborators_empty, hdata, hrepo]

/-- When the body lacks a `data.repository` mapping, the collaborators
overwrite raises a lookup error. -/
theorem set_collaborators_empty_raises (rd : ResponseData)
    (h : hasDataRepository rd = false) :
    ∃ e, set_collaborators_empty rd = .error e := by
  cases hdata : rd.data with
  | absent => exact ⟨.keyError "data", by simp [set_collaborators_empty, hdata]⟩
  | null => exact ⟨.typeError, by simp [set_collaborators_empty, hdata]⟩
  | val dobj =>
    cases hrepo : dobj.repository with
    | absent => exact ⟨.keyError "repository", by simp [set_collaborators_empty, hdata, hrepo]⟩
    | null => exact ⟨.typeError, by simp [set_collaborators_empty, hdata, hrepo]⟩
    | val repo => simp [hasDataRepository, hdata, hrepo] at h

/-- C1 (counterexample): a 200 response whose single error is FORBIDDEN on
the issues path — so not every error is a forbidden error on the
collaborators field — is nevertheless returned as a successful snapshot with
an emptied collaborator list, not as the error pair carrying the error
list. -/
theorem fetch_carveout_counterexample :
    forbiddenIssuesResponse.status_code = 200
    ∧ forbiddenIssuesResponse.body.errors
        = some [{ type := "FORBIDDEN", path := ["repository", "issues"] }]
    ∧ List.all [{ type := "FORBIDDEN", path := ["repository", "issues"] }]
        specForbiddenOnCollaborators = false
    ∧ isApiErrorPair (get_repo_details_and_issues forbiddenIssuesResponse) = false
    ∧ get_repo_details_and_issues forbiddenIssuesResponse
        = .ok (some { errors := some [{ type := "FORBIDDEN", path := ["repository", "issues"] }],
                      data := .val { repository := .val { exampleRepo with collaborators := [] } } },
               none) := by
  refine ⟨rfl, rfl, by decide, rfl, rfl⟩

/-- C1 (amended): for a 200 response carrying an error list and a
`data.repository` mapping, the fetch succeeds with the collaborators field
overwritten by an empty list when at least one reported error has type
FORBIDDEN (whatever field it concerns), and fails with the error pair
carrying the error list otherwise. -/
theorem fetch_forbidden_carveout (response : HttpResponse) (errors : List GqlError)
    (dobj : DataObj) (repo : Repo)
    (hstatus : response.status_code = 200)
    (herrors : response.body.errors = some errors)
    (hdata : response.body.data = .val dobj)
    (hrepo : dobj.repository = .val repo) :
    (errors.any (fun error => error.type == "FORBIDDEN") = true →
      get_repo_details_and_issues response
        = .ok (some { response.body with
            data := .val { repository := .val { repo with collaborators := [] } } }, none))
    ∧ (errors.any (fun error => error.type == "FORBIDDEN") = false →
      get_repo_details_and_issues response
        = .ok (none, some (.errorsInResponse errors))) := by
  have hs : ¬ response.status_code ≠ 200 := by simp [hstatus]
  have hset := set_collaborators_empty_of_val response.body dobj repo hdata hrepo
  constructor
  · intro hany
    simp only [get_repo_details_and_issues, hs, if_false, herrors, hany, if_true, hset]
  · intro hany
    simp only [get_repo_details_and_issues, hs, if_false, herrors, hany,
      Bool.false_eq_true, if_false]

/-- Witness for C1 (amended): both branches at concrete responses — a
FORBIDDEN error on the collaborators path yields the degraded snapshot, and
a response whose errors carry no FORBIDDEN entry yields the error pair. -/
theorem fetch_forbidden_carveout_witness :
    get_repo_details_and_issues forbiddenCollaboratorsResponse
      = .ok (some { forbiddenCollaboratorsResponse.body with
          data := .val { repository := .val { exampleRepo with collaborators := [] } } }, none) :=
  (fetch_forbidden_carveout forbiddenCollaboratorsResponse
    [{ type := "FORBIDDEN", path := ["repository", "collaborators"] }]
    { repository := .val exampleRepo } exampleRepo rfl rfl rfl rfl).1 (by decide)

/-- C10: on a 200 response, `get_repo_details_and_issues` returns a value
(never raises) whenever any FORBIDDEN-carrying error list comes with a
`data.repository` mapping; and on any 200 response with a FORBIDDEN entry
whose body lacks that mapping, the collaborators overwrite raises a lookup
error instead of returning the `(None, message)` error pair. -/
theorem fetch_totality_requires_data_repository (response : HttpResponse)
    (hstatus : response.status_code = 200) :
    ((∀ errors, response.body.errors = some errors →
        errors.any (fun error => error.type == "FORBIDDEN") = true →
        hasDataRepository response.body = true) →
      ∃ v, get_repo_details_and_issues response = .ok v)
    ∧ (∀ errors, response.body.errors = some errors →
        errors.any (fun error => error.type == "FORBIDDEN") = true →
        hasDataRepository response.body = false →
        ∃ e, get_repo_details_and_issues response = .error e) := by
  have hs : ¬ response.status_code ≠ 200 := by simp [hstatus]
  constructor
  · intro hpre
    cases herr : response.body.errors with
    | none =>
      exact ⟨(some response.body, none),
        by simp only [get_repo_details_and_issues, hs, if_false, herr]⟩
    | some errors =>
      by_cases hany : errors.any (fun error => error.type == "FORBIDDEN") = true
      · have hdr := hpre errors herr hany
        cases hdata : response.body.data with
        | absent => simp [hasDataRepository, hdata] at hdr
        | null => simp [hasDataRepository, hdata] at hdr
        | val dobj =>
          cases hrepo : dobj.repository with
          | absent => simp [hasDataRepository, hdata, hrepo] at hdr
          | null => simp [hasDataRepository, hdata, hrepo] at hdr
          | val repo =>
            have hset := set_collaborators_empty_of_val response.body dobj repo hdata hrepo
            exact ⟨(some { response.body with
                data := .val { repository := .val { repo with collaborators := [] } } }, none), by
              simp only [get_repo_details_and_issues, hs, if_false, herr, hany, if_true, hset]⟩
      · have hany2 : errors.any (fun error => error.type == "FORBIDDEN") = false := by
          simpa using hany
        exact ⟨(none, some (.errorsInResponse errors)), by
          simp only [get_repo_details_and_issues, hs, if_false, herr, hany2,
            Bool.false_eq_true]⟩
  · intro errors herr hany hdr
    obtain ⟨e, he⟩ := set_collaborators_empty_raises response.body hdr
    exact ⟨e, by simp only [get_repo_details_and_issues, hs, if_false, herr, hany, if_true, he]⟩

/-- Witness for C10: the FORBIDDEN response with `data` equal to null makes
the fetch raise, while the same errors with `data.repository` present keep
it total. -/
theorem fetch_totality_requires_data_repository_witness :
    (∃ v, get_repo_details_and_issues forbiddenCollaboratorsResponse = .ok v)
    ∧ (∃ e, get_repo_details_and_issues forbiddenNullDataResponse = .error e) :=
  ⟨(fetch_totality_requires_data_repository forbiddenCollaboratorsResponse rfl).1
      (fun _ _ _ => rfl),
   (fetch_totality_requires_data_repository forbiddenNullDataResponse rfl).2
      [{ type := "FORBIDDEN", path := ["repository", "collaborators"] }] rfl (by decide) rfl⟩

/-- Decoding inverts encoding on a single campaign entry. -/
theorem decodeEntry_encodeEntry (e : CampaignEntry) :
    decodeEntry (encodeEntry e) = some e := by
  cases e with
  | mk rn ow s f ls avg d cs i60 c60 => cases d <;> rfl

/-- Decoding inverts encoding on a list of campaign entries. -/
theorem decodeEntries_map_encode (c : List CampaignEntry) :
    decodeEntries (c.map encodeEntry) = some c := by
  induction c with
  | nil => rfl
  | cons e rest ih => simp [decodeEntries, decodeEntry_encodeEntry, ih]

/-- Loading right after saving recovers exactly the saved campaign. -/
theorem decode_load_save (c : List CampaignEntry) (file : Option Json) :
    decodeCampaign (load_campaign (save_campaign c file)) = some c := by
  simp [save_campaign, load_campaign, decodeCampaign, decodeEntries_map_encode]

/-- C5: the persistence layer is round-trip faithful — a load performed after
a save reproduces the saved sequence of entries, and starting from any file
whose loaded content decodes to a campaign, performing save-of-load twice
produces the same file as performing it once. -/
theorem campaign_roundtrip :
    (∀ (c : List CampaignEntry) (file : Option Json),
      decodeCampaign (load_campaign (save_campaign c file)) = some c)
    ∧ (∀ (file : Option Json) (c : List CampaignEntry),
      decodeCampaign (load_campaign file) = some c →
      ∃ c2, decodeCampaign (load_campaign (save_campaign c file)) = some c2
        ∧ save_campaign c2 (save_campaign c file) = save_campaign c file) :=
  ⟨decode_load_save, fun file c _ => ⟨c, decode_load_save c file, rfl⟩⟩

/-- Witness for C5: save-of-load applied twice to a concrete one-entry file
equals a single save. -/
theorem campaign_roundtrip_witness :
    ∃ c2, decodeCampaign (load_campaign
        (save_campaign [exampleEntry] (save_campaign [exampleEntry] none))) = some c2
      ∧ save_campaign c2 (save_campaign [exampleEntry] (save_campaign [exampleEntry] none))
          = save_campaign [exampleEntry] (save_campaign [exampleEntry] none) :=
  campaign_roundtrip.2 (save_campaign [exampleEntry] none) [exampleEntry] (by rfl)

/-- C6: immediately after either mutating campaign action — append followed
by save, or clear followed by save — the persisted file decodes back to
exactly the in-memory campaign sequence. -/
theorem campaign_memory_disk_invariant (entry : CampaignEntry) (st : AppState) :
    decodeCampaign (load_campaign (add_to_campaign entry st).file)
        = some (add_to_campaign entry st).campaign_repos
    ∧ decodeCampaign (load_campaign (clear_campaign st).file)
        = some (clear_campaign st).campaign_repos :=
  ⟨decode_load_save (st.campaign_repos ++ [entry]) st.file,
   decode_load_save [] st.file⟩

/-- C7: loading returns the parsed file content when the file is present and
the empty sequence when it is absent — absence is a normal state, the
function is total and never fails. -/
theorem load_campaign_absent_is_empty :
    (∀ j : Json, load_campaign (some j) = j)
    ∧ load_campaign none = Json.arr []
    ∧ decodeCampaign (load_campaign none) = some [] :=
  ⟨fun _ => rfl, rfl, rfl⟩

/-- C8: appending performs no deduplication by repository identity — adding
two entries with the same owner and name produces two entries appended in
insertion order, growing the campaign by exactly two. -/
theorem append_no_dedup (st : AppState) (e1 e2 : CampaignEntry)
    (_howner : e1.owner = e2.owner) (_hname : e1.repo_name = e2.repo_name) :
    (add_to_campaign e2 (add_to_campaign e1 st)).campaign_repos
        = st.campaign_repos ++ [e1, e2]
    ∧ (add_to_campaign e2 (add_to_campaign e1 st)).campaign_repos.length
        = st.campaign_repos.length + 2 := by
  constructor
  · simp [add_to_campaign]
  · simp [add_to_campaign]

/-- Witness for C8: adding the same concrete entry twice to a fresh session
yields the two-element campaign. -/
theorem append_no_dedup_witness :
    (add_to_campaign exampleEntry (add_to_campaign exampleEntry exampleState)).campaign_repos
        = exampleState.campaign_repos ++ [exampleEntry, exampleEntry]
    ∧ (add_to_campaign exampleEntry
        (add_to_campaign exampleEntry exampleState)).campaign_repos.length
        = exampleState.campaign_repos.length + 2 :=
  append_no_dedup exampleState exampleEntry exampleEntry rfl rfl

/-- C9: the search handler's language list never contains "Hack" after the
filter, the campaign record persists exactly the comma-joined filtered list,
and this holds even when the API reports "Hack" among the repository's
languages. -/
theorem languages_exclude_hack (edges : List LanguageEdge) (repo owner : String)
    (stargazers_count fork_count : Int) (average_time_fmt : String)
    (latest_commit_date : Option String) (contributor_logins : List String)
    (issues60 commits60 : ℕ) :
    "Hack" ∉ filtered_languages edges
    ∧ (build_campaign_entry repo owner stargazers_count fork_count edges average_time_fmt
        latest_commit_date contributor_logins issues60 commits60).languages
      = String.intercalate ", " (filtered_languages edges)
    ∧ ("Hack" ∈ extracted_languages edges → "Hack" ∉ filtered_languages edges) := by
  have hmem : "Hack" ∉ filtered_languages edges := by
    simp [filtered_languages, List.mem_filter]
  exact ⟨hmem, rfl, fun _ => hmem⟩

/-- Witness for C9: concrete edges where the API reports "Hack" — it is
absent from the filtered list and from the persisted languages field. -/
theorem languages_exclude_hack_witness :
    "Hack" ∈ extracted_languages exampleEdges
    ∧ "Hack" ∉ filtered_languages exampleEdges
    ∧ (build_campaign_entry "repo" "octo" 3 1 exampleEdges "10.00 hours" none
        ["alice"] 2 5).languages
      = String.intercalate ", " (filtered_languages exampleEdges) :=
  have hin : "Hack" ∈ extracted_languages exampleEdges := by decide
  ⟨hin,
   (languages_exclude_hack exampleEdges "repo" "octo" 3 1 "10.00 hours" none
      ["alice"] 2 5).2.2 hin,
   (languages_exclude_hack exampleEdges "repo" "octo" 3 1 "10.00 hours" none
      ["alice"] 2 5).2.1⟩
